import Mathlib

/-!
Shallow embedding of the workerd-proxy tunnel engine
(src/reqmgr.js, src/socketb.js, src/tunmgr.js) and proofs about it.

Conventions of the embedding:
* JavaScript numbers that are only ever small non-negative integers are `Nat`;
  values compared against `< 0` in the source (slot indices) are `Int`;
  wall-clock timestamps are `Int` milliseconds.
* A field the constructor never initializes (so it is `undefined` until first
  written) is modelled by `Option _` with `none` for `undefined`, or, when it
  is only ever read through JavaScript truthiness and assigned `Bool`s, by a
  `Bool` that starts `false` (which is observationally the same as `undefined`
  in every read the source performs).
* Thrown JavaScript exceptions are surfaced as `JsErr` values threaded through
  the result (via `Except` or an `Option JsErr` component).
-/

namespace WorkerdProxy

/-- JavaScript runtime exceptions that the modelled code paths can raise. -/
inductive JsErr
  | referenceError
  | typeError
  | rangeError
deriving Repr, DecidableEq

/-! ## src/socketb.js -/

/-- `STATE_CONNECTING` from src/socketb.js. -/
def STATE_CONNECTING : Nat := 0

/-- `STATE_CONNECTTED` from src/socketb.js (sic). -/
def STATE_CONNECTTED : Nat := 1

/-- `STATE_CLOSED` from src/socketb.js. -/
def STATE_CLOSED : Nat := 2

/-- State of one `Socketb` object (src/socketb.js).  `sentChunks` records, in
order, the chunks that have been handed to the underlying writable stream. -/
structure Socketb where
  address : String
  state : Nat
  chunks2Send : List (List Nat)
  inSending : Bool
  sentChunks : List (List Nat)
deriving Repr, DecidableEq

/-- The `Socketb` constructor: `connect(address)` is initiated, state is
`STATE_CONNECTING`, the write queue is empty and no drainer runs. -/
def Socketb.new (address : String) : Socketb :=
  { address := address
    state := STATE_CONNECTING
    chunks2Send := []
    inSending := false
    sentChunks := [] }

def Socketb.isConnected (s : Socketb) : Bool := s.state == STATE_CONNECTTED

def Socketb.isClosed (s : Socketb) : Bool := s.state == STATE_CLOSED

/-- `Socketb.startSendLoop`.  The source body is

    if (this.inSending) { return; }
    writeLoop();

`writeLoop` names no binding in scope — the drain loop exists only as the
method `this.writeLoop` — so the call raises `ReferenceError` and the drain
loop is never entered. -/
def Socketb.startSendLoop (s : Socketb) : Socketb × Option JsErr :=
  if s.inSending then (s, none)
  else (s, some JsErr.referenceError)

/-- `Socketb.write(chunk)`: discarded when closed; otherwise the chunk is
pushed onto `chunks2Send` and, when no drainer runs, `startSendLoop` is
called (which raises, see `Socketb.startSendLoop`). -/
def Socketb.write (s : Socketb) (chunk : List Nat) : Socketb × Option JsErr :=
  if s.isClosed then (s, none)
  else
    let s2 : Socketb := { s with chunks2Send := s.chunks2Send ++ [chunk] }
    if !s2.inSending then s2.startSendLoop
    else (s2, none)

/-- `Socketb.close()` tears the underlying stream down; the observable state
change (to `STATE_CLOSED`) arrives later through the `closed` event. -/
def Socketb.close (s : Socketb) : Socketb := s

/-! ## src/request.js (the `Request` class bundled with src/reqmgr.js) -/

/-- State of one `Request` object.

* The constructor sets `tag`, `inUsed := false` and `socketb := null` and
  nothing else; in particular `isUsed` and `idx` are `undefined` until first
  assigned, which we model as `false` / `none`.
* `inUsed` is never written anywhere else in the program; `alloc`, `free` and
  `cleanup` write `isUsed`. -/
structure Request where
  tag : Nat
  inUsed : Bool
  isUsed : Bool
  idx : Option Nat
  socketb : Option Socketb
deriving Repr, DecidableEq

/-- The `Request` constructor `new Request(tag, tunnel)`. -/
def Request.new (tag : Nat) : Request :=
  { tag := tag, inUsed := false, isUsed := false, idx := none, socketb := none }

/-- `Request.free()`: closes the socket object if present and nulls it out. -/
def Request.free (r : Request) : Request :=
  match r.socketb with
  | some _ => { r with socketb := none }
  | none => r

/-- `Request.proxy(toAddr)`: refuses when a socket is already installed,
otherwise constructs a `Socketb` connecting to `toAddr` and installs it. -/
def Request.proxy (r : Request) (toAddr : String) : Request :=
  if r.socketb.isSome then r
  else { r with socketb := some (Socketb.new toAddr) }

/-- `Request.onClientData(databuf, offset)`: writes `databuf.slice(offset)`
into the socket object when one is installed. -/
def Request.onClientData (r : Request) (databuf : List Nat) (offset : Nat) :
    Request × Option JsErr :=
  match r.socketb with
  | none => (r, none)
  | some sb =>
    let data := databuf.drop offset
    let res := Socketb.write sb data
    ({ r with socketb := some res.1 }, res.2)

/-- `Request.onClientFinished()`: calls `socketb.shutdownWrite()`, whose body
is a TODO comment in the source, so the state is unchanged. -/
def Request.onClientFinished (r : Request) : Request := r

/-! ## src/reqmgr.js -/

/-- State of a `ReqMgr`: the capacity and the slot array `reqq`.  The
constructor builds `cap` fresh `Request` objects with `tag = i`. -/
structure ReqMgr where
  cap : Nat
  reqq : List Request
deriving Repr, DecidableEq

/-- The `ReqMgr` constructor. -/
def ReqMgr.new (cap : Nat) : ReqMgr :=
  { cap := cap, reqq := (List.range cap).map (fun i => Request.new i) }

/-- `ReqMgr.alloc(idx, tag)`.  Returns the updated manager and the returned
request (`none` models returning `null`).  Note that the in-use guard reads
`req.inUsed`, exactly as the source does, while the success path assigns
`req.isUsed`. -/
def ReqMgr.alloc (m : ReqMgr) (idx : Int) (tag : Nat) : ReqMgr × Option Request :=
  if (m.cap : Int) ≤ idx ∨ idx < 0 then (m, none)
  else
    match m.reqq[idx.toNat]? with
    | none => (m, none)
    | some req =>
      if req.inUsed then (m, none)
      else
        let req2 : Request := { req with tag := tag, idx := some idx.toNat, isUsed := true }
        ({ m with reqq := m.reqq.set idx.toNat req2 }, some req2)

/-- `ReqMgr.free(idx, tag)`: range check, `isUsed` check, tag check; then the
tag is bumped, `isUsed` cleared, and `Request.free` invoked. -/
def ReqMgr.free (m : ReqMgr) (idx : Int) (tag : Nat) : ReqMgr :=
  if (m.cap : Int) ≤ idx ∨ idx < 0 then m
  else
    match m.reqq[idx.toNat]? with
    | none => m
    | some req =>
      if !req.isUsed then m
      else if req.tag ≠ tag then m
      else
        let req2 := Request.free { req with tag := req.tag + 1, isUsed := false }
        { m with reqq := m.reqq.set idx.toNat req2 }

/-- `ReqMgr.get(idx, tag)`: returns the slot iff range-valid, `isUsed`, and
the tag matches. -/
def ReqMgr.get (m : ReqMgr) (idx : Int) (tag : Nat) : Option Request :=
  if (m.cap : Int) ≤ idx ∨ idx < 0 then none
  else
    match m.reqq[idx.toNat]? with
    | none => none
    | some req =>
      if !req.isUsed then none
      else if req.tag ≠ tag then none
      else some req

/-- One iteration of the `cleanup` loop at index `i`: when `reqq[i].inUsed`
(the field the constructor pinned to `false`), bump the tag, clear `isUsed`
and call `Request.free`. -/
def ReqMgr.cleanupStepAt (acc : ReqMgr) (i : Nat) : ReqMgr :=
  match acc.reqq[i]? with
  | none => acc
  | some req =>
    if req.inUsed then
      { acc with reqq := acc.reqq.set i (Request.free { req with tag := req.tag + 1, isUsed := false }) }
    else acc

/-- `ReqMgr.cleanup()`: iterates `i` over `[0, cap)`. -/
def ReqMgr.cleanup (m : ReqMgr) : ReqMgr :=
  (List.range m.cap).foldl ReqMgr.cleanupStepAt m

/-! ## src/tunmgr.js — frame codec constants and buffer reads -/

def CMD_None : Nat := 0
def CMD_Ping : Nat := 1
def CMD_Pong : Nat := 2
def CMD_ReqBEGIN : Nat := 3
def CMD_ReqData : Nat := 3
def CMD_ReqCreated : Nat := 4
def CMD_ReqClientClosed : Nat := 5
def CMD_ReqClientFinished : Nat := 6
def CMD_ReqServerFinished : Nat := 7
def CMD_ReqServerClosed : Nat := 8
def CMD_ReqRefreshQuota : Nat := 9
def CMD_ReqEND : Nat := 10

/-- `Buffer.readUInt8(off)`: throws `ERR_OUT_OF_RANGE` past the end. -/
def readUInt8 (buf : List Nat) (off : Nat) : Except JsErr Nat :=
  match buf[off]? with
  | some b => Except.ok b
  | none => Except.error JsErr.rangeError

/-- `Buffer.readUInt16LE(off)`: little-endian 16-bit read, throwing
`ERR_OUT_OF_RANGE` past the end. -/
def readUInt16LE (buf : List Nat) (off : Nat) : Except JsErr Nat :=
  match buf[off]?, buf[off + 1]? with
  | some lo, some hi => Except.ok (lo + 256 * hi)
  | _, _ => Except.error JsErr.rangeError

/-- `Buffer.slice(off, end).toString()` of a UTF-8 hostname; the byte-level
identity of the decoded text is irrelevant to every claim, so the hostname
string is rendered from its bytes positionally. -/
def bytesToString (bytes : List Nat) : String :=
  String.join (bytes.map (fun b => toString b))

/-- The textual IPv6 address the source builds from the eight little-endian
u16 groups: `p8 + ":" + p7 + ... + ":" + p1`. -/
def ipv6DomainString (p1 p2 p3 p4 p5 p6 p7 p8 : Nat) : String :=
  toString p8 ++ ":" ++ toString p7 ++ ":" ++ toString p6 ++ ":" ++ toString p5 ++ ":"
    ++ toString p4 ++ ":" ++ toString p3 ++ ":" ++ toString p2 ++ ":" ++ toString p1

/-! ## src/tunmgr.js — `Tunnel.onRequestCreated` -/

/-- Result of one `onRequestCreated` call. -/
inductive ReqCreatedOutcome
  | threw (e : JsErr)
  | droppedUnsupported
  | proxied (addr : String)
deriving Repr, DecidableEq

/-- The code below the `switch` in `onRequestCreated` (reached only from the
domain-name case, the single case that ends in `break`):

    let req = this.reqMgr.alloc(idx, tag)
    if (req == null) { console.log("onRequestCreated, alloc req failed:", err); return }
    let addr = domain + ":" + port;
    req.proxy(addr);

The failure log reads `err`, a name bound nowhere in scope, so the failure
path throws `ReferenceError`.  On success the mutation `req.proxy(addr)` is
visible through the table because `req` aliases `reqq[idx]`. -/
def Tunnel.allocAndProxy (m : ReqMgr) (idx tag : Nat) (domain : String) (port : Nat) :
    Except JsErr (ReqMgr × ReqCreatedOutcome) :=
  let res := m.alloc (idx : Int) tag
  match res.2 with
  | none => Except.error JsErr.referenceError
  | some req =>
    let addr := domain ++ ":" ++ toString port
    let req2 := req.proxy addr
    Except.ok ({ res.1 with reqq := res.1.reqq.set idx req2 }, ReqCreatedOutcome.proxied addr)

/-- `Tunnel.onRequestCreated(idx, tag, databuf, offset)`, with exceptions in
the `Except` monad.  Branches:
* `case 0` (ipv4) evaluates `message[4] + "." + ...`; `message` is bound
  nowhere, so a `ReferenceError` is thrown before anything else happens;
* `case 1` (domain) parses the hostname and port and, ending in `break`,
  proceeds below the switch to allocate and proxy;
* `case 2` (ipv6) reads the eight groups and the port and builds the textual
  address, but the case has no `break`: control falls through into the
  `default` arm, which logs "unsupport addressType" and returns, discarding
  the computed address; no slot is allocated;
* any other address type hits `default` directly. -/
def Tunnel.onRequestCreatedE (m : ReqMgr) (idx tag : Nat) (databuf : List Nat)
    (offset : Nat) : Except JsErr (ReqMgr × ReqCreatedOutcome) :=
  match readUInt8 databuf offset with
  | Except.error e => Except.error e
  | Except.ok addressType =>
    let off := offset + 1
    if addressType = 0 then
      Except.error JsErr.referenceError
    else if addressType = 1 then
      match readUInt8 databuf off with
      | Except.error e => Except.error e
      | Except.ok domainLen =>
        match readUInt16LE databuf (off + 1 + domainLen) with
        | Except.error e => Except.error e
        | Except.ok port =>
          Tunnel.allocAndProxy m idx tag
            (bytesToString ((databuf.drop (off + 1)).take domainLen)) port
    else if addressType = 2 then
      match readUInt16LE databuf off, readUInt16LE databuf (off + 2),
        readUInt16LE databuf (off + 4), readUInt16LE databuf (off + 6),
        readUInt16LE databuf (off + 8), readUInt16LE databuf (off + 10),
        readUInt16LE databuf (off + 12), readUInt16LE databuf (off + 14),
        readUInt16LE databuf (off + 16) with
      | Except.ok p1, Except.ok p2, Except.ok p3, Except.ok p4, Except.ok p5,
        Except.ok p6, Except.ok p7, Except.ok p8, Except.ok _port =>
        let _domain := ipv6DomainString p1 p2 p3 p4 p5 p6 p7 p8
        Except.ok (m, ReqCreatedOutcome.droppedUnsupported)
      | _, _, _, _, _, _, _, _, _ => Except.error JsErr.rangeError
    else
      Except.ok (m, ReqCreatedOutcome.droppedUnsupported)

/-- `Tunnel.onRequestCreated` with a thrown exception surfaced in the outcome;
every throwing path leaves the table untouched. -/
def Tunnel.onRequestCreated (m : ReqMgr) (idx tag : Nat) (databuf : List Nat)
    (offset : Nat) : ReqMgr × ReqCreatedOutcome :=
  match Tunnel.onRequestCreatedE m idx tag databuf offset with
  | Except.ok r => r
  | Except.error e => (m, ReqCreatedOutcome.threw e)

/-! ## src/tunmgr.js — tunnel state, keepalive and inbound dispatch -/

/-- One outbound frame placed on the tunnel's send queue.  The `Ping` body is
an 8-byte little-endian double of the sender's clock, carried here as the
integer millisecond value; a `Pong` is the byte-for-byte copy of the received
ping with byte 0 rewritten, carried exactly. -/
inductive OutFrame
  | ping (timestampMs : Int)
  | pong (bytes : List Nat)
deriving Repr, DecidableEq

/-- The tunnel fields the modelled operations read or write.

`waitingPing` is `Option Nat`: the `Tunnel` constructor never initializes
`this.waitingPing`, so the field is `undefined` until `onPong` assigns 0;
`none` models that `undefined` (and the `NaN` that `undefined++` produces —
the two are indistinguishable in every read the source performs: both fail
`> 3` and both are fixed points of `++`).  `websocket` is `true` while
`this.websocket` is non-null and open. -/
structure TunnelState where
  reqMgr : ReqMgr
  lastActivate : Int
  waitingPing : Option Nat
  sendQueue : List OutFrame
  websocket : Bool
deriving Repr, DecidableEq

/-- The `Tunnel` constructor `(mgr, id, reqCap, websocket)`. -/
def Tunnel.new (reqCap : Nat) (now : Int) : TunnelState :=
  { reqMgr := ReqMgr.new reqCap
    lastActivate := now
    waitingPing := none
    sendQueue := []
    websocket := true }

/-- JavaScript `x > k` for `x` undefined-or-NaN versus a number. -/
def jsUndefGt (x : Option Nat) (k : Nat) : Bool :=
  match x with
  | none => false
  | some n => decide (k < n)

/-- JavaScript `x++` for `x` undefined-or-NaN versus a number:
`undefined++` stores `NaN`, and `NaN++` stays `NaN`. -/
def jsUndefIncr (x : Option Nat) : Option Nat :=
  match x with
  | none => none
  | some n => some (n + 1)

/-- `Tunnel.close()`: closes and nulls the websocket when it is valid. -/
def Tunnel.close (t : TunnelState) : TunnelState :=
  if t.websocket then { t with websocket := false } else t

/-- `Tunnel.send(buf)`: returns immediately when the websocket is invalid or
not open; otherwise the frame joins `sendBufs` (drained FIFO, see the
`SendLoopState` machine below for the drainer itself). -/
def Tunnel.send (t : TunnelState) (f : OutFrame) : TunnelState :=
  if !t.websocket then t
  else { t with sendQueue := t.sendQueue ++ [f] }

/-- `Tunnel.sendPingMessage()`: 9-byte ping frame carrying the clock. -/
def Tunnel.sendPingMessage (t : TunnelState) (now : Int) : TunnelState :=
  Tunnel.send t (OutFrame.ping now)

/-- `Tunnel.sendPongMessage(origin)`: copy of the received ping with byte 0
rewritten to `CMD_Pong`. -/
def Tunnel.sendPongMessage (t : TunnelState) (origin : List Nat) : TunnelState :=
  Tunnel.send t (OutFrame.pong (origin.set 0 CMD_Pong))

/-- `Tunnel.onPong()`: reset the counter. -/
def Tunnel.onPong (t : TunnelState) : TunnelState :=
  { t with waitingPing := some 0 }

/-- `Tunnel.keepalive(now, throttle)`:

    if (this.waitingPing > 3) { this.close(); return; }
    let th = now - this.lastActivate;
    if (th > throttle) { this.sendPingMessage(); this.waitingPing++; }
-/
def Tunnel.keepalive (t : TunnelState) (now throttle : Int) : TunnelState :=
  if jsUndefGt t.waitingPing 3 then Tunnel.close t
  else if now - t.lastActivate > throttle then
    { Tunnel.sendPingMessage t now with waitingPing := jsUndefIncr t.waitingPing }
  else t

/-- `Tunnel.isRequestCmd(cmd)`. -/
def Tunnel.isRequestCmd (cmd : Nat) : Bool :=
  decide (CMD_ReqBEGIN ≤ cmd ∧ cmd < CMD_ReqEND)

/-- The table-level effect of `Tunnel.onReqClientData(idx, tag, databuf,
offset)`: table lookup, then `req.onClientData`; the mutated request is
visible through the table because `req` aliases `reqq[idx]`. -/
def ReqMgr.clientData (m : ReqMgr) (idx tag : Nat) (databuf : List Nat)
    (offset : Nat) : ReqMgr × Option JsErr :=
  match m.get (idx : Int) tag with
  | none => (m, none)
  | some req =>
    let res := req.onClientData databuf offset
    ({ m with reqq := m.reqq.set idx res.1 }, res.2)

/-- The table-level effect of `Tunnel.onReqClientFinished(idx, tag)`. -/
def ReqMgr.clientFinished (m : ReqMgr) (idx tag : Nat) : ReqMgr :=
  match m.get (idx : Int) tag with
  | none => m
  | some req =>
    { m with reqq := m.reqq.set idx req.onClientFinished }

/-- `Tunnel.onReqClientData(idx, tag, databuf, offset)`. -/
def Tunnel.onReqClientData (t : TunnelState) (idx tag : Nat) (databuf : List Nat)
    (offset : Nat) : TunnelState × Option JsErr :=
  let res := t.reqMgr.clientData idx tag databuf offset
  ({ t with reqMgr := res.1 }, res.2)

/-- `Tunnel.onReqClientFinished(idx, tag)`. -/
def Tunnel.onReqClientFinished (t : TunnelState) (idx tag : Nat) : TunnelState :=
  { t with reqMgr := t.reqMgr.clientFinished idx tag }

/-- `Tunnel.onReqClientClosed(idx, tag)`. -/
def Tunnel.onReqClientClosed (t : TunnelState) (idx tag : Nat) : TunnelState :=
  { t with reqMgr := t.reqMgr.free (idx : Int) tag }

/-- `Tunnel.onRequestMessage(cmd, databuf)`: parse `idx` and `tag` from bytes
1..5 (each read throws past the end) and dispatch on the command; commands in
the request range with no case — 7, 8 and 9 — reach `default`, which only
logs. -/
def Tunnel.onRequestMessage (t : TunnelState) (cmd : Nat) (databuf : List Nat) :
    TunnelState × Option JsErr :=
  match readUInt16LE databuf 1 with
  | Except.error e => (t, some e)
  | Except.ok idx =>
    match readUInt16LE databuf 3 with
    | Except.error e => (t, some e)
    | Except.ok tag =>
      if cmd = CMD_ReqCreated then
        let res := Tunnel.onRequestCreated t.reqMgr idx tag databuf 5
        ({ t with reqMgr := res.1 },
          match res.2 with
          | ReqCreatedOutcome.threw e => some e
          | _ => none)
      else if cmd = CMD_ReqData then
        Tunnel.onReqClientData t idx tag databuf 5
      else if cmd = CMD_ReqClientFinished then
        (Tunnel.onReqClientFinished t idx tag, none)
      else if cmd = CMD_ReqClientClosed then
        (Tunnel.onReqClientClosed t idx tag, none)
      else
        (t, none)

/-- `Tunnel.onTunnelMessage(data)`: length guard, command dispatch. -/
def Tunnel.onTunnelMessage (t : TunnelState) (data : List Nat) :
    TunnelState × Option JsErr :=
  if data.length < 1 then (t, none)
  else
    match data[0]? with
    | none => (t, none)
    | some cmd =>
      if Tunnel.isRequestCmd cmd then Tunnel.onRequestMessage t cmd data
      else if cmd = CMD_None then (t, none)
      else if cmd = CMD_Ping then (Tunnel.sendPongMessage t data, none)
      else if cmd = CMD_Pong then (Tunnel.onPong t, none)
      else (t, none)

/-- The websocket `message` listener installed by `setupWebsocket`: update
`lastActivate` to now, then `onTunnelMessage`. -/
def Tunnel.onMessageEvent (t : TunnelState) (now : Int) (data : List Nat) :
    TunnelState × Option JsErr :=
  Tunnel.onTunnelMessage { t with lastActivate := now } data

/-! ## src/tunmgr.js — the send-queue promises and `Tunnel.onClosed` -/

/-- Observable state of the Promise a caller of `Tunnel.send` awaits. -/
inductive PromiseState
  | pending
  | resolved
deriving Repr, DecidableEq

/-- The JavaScript values handled inside `callSendBufResolve`: either
`undefined` or a function value (the Promise executor's `resolve`
callback, which fulfills the promise when invoked). -/
inductive JsVal
  | undef
  | fn (f : PromiseState → PromiseState)

/-- Property access `v.resolve`: a function value carries no own property
named `resolve`, so the access yields `undefined`; property access on
`undefined` itself throws `TypeError`. -/
def jsGetResolveMember (v : JsVal) : Except JsErr JsVal :=
  match v with
  | JsVal.fn _ => Except.ok JsVal.undef
  | JsVal.undef => Except.error JsErr.typeError

/-- A JavaScript call `v(p)`: calling `undefined` throws `TypeError`. -/
def jsCall (v : JsVal) (p : PromiseState) : Except JsErr PromiseState :=
  match v with
  | JsVal.fn f => Except.ok (f p)
  | JsVal.undef => Except.error JsErr.typeError

/-- One entry of `this.sendBufs`: the frame bytes, the `resolve` callback
stored by `Tunnel.send`, and the state of the Promise the caller awaits. -/
structure SendBuf where
  buf : List Nat
  resolveFn : JsVal
  promise : PromiseState

/-- The entry `Tunnel.send` pushes: `{"buf": buf, "resolve": resolve, ...}`
with a pending promise whose `resolve` callback fulfills it. -/
def SendBuf.new (buf : List Nat) : SendBuf :=
  { buf := buf
    resolveFn := JsVal.fn (fun _ => PromiseState.resolved)
    promise := PromiseState.pending }

/-- `Tunnel.callSendBufResolve(sendBuf)`:

    try { sendBuf.resolve.resolve(); } catch (err) { console.log(...); }

`sendBuf.resolve` is the resolve function; `.resolve` on it is `undefined`;
the call throws `TypeError`, which the `catch` swallows, so the promise is
left as it was. -/
def Tunnel.callSendBufResolve (sb : SendBuf) : SendBuf :=
  match jsGetResolveMember sb.resolveFn with
  | Except.error _ => sb
  | Except.ok member =>
    match jsCall member sb.promise with
    | Except.ok p => { sb with promise := p }
    | Except.error _ => sb

/-- The tunnel fields `Tunnel.onClosed` touches: the pending send entries,
the request table and the websocket handle. -/
structure TunnelCloseView where
  sendBufs : List SendBuf
  reqMgr : ReqMgr
  websocket : Bool

/-- `Tunnel.onClosed()`: run `callSendBufResolve` over every queued entry,
reset `sendBufs` to `[]`, run `reqMgr.cleanup()`, notify the manager, and
`close()` the websocket.  The second component returns the processed entries
— the promises the blocked callers still hold. -/
def Tunnel.onClosed (t : TunnelCloseView) : TunnelCloseView × List SendBuf :=
  let processed := t.sendBufs.map Tunnel.callSendBufResolve
  ({ sendBufs := []
     reqMgr := t.reqMgr.cleanup
     websocket := false },
   processed)

/-! ## src/tunmgr.js — the outbound send drainer (`sendLoop`)

A small-step machine for the cooperative interleaving of `pushSendRequest`
and the `await this.websocket.send(...)` completions inside `sendLoop`.
`sendBufs` is `this.sendBufs`; `snapshot` is the drainer's local `sendBufs`
array (the entries of the current round not yet sent); `sentFrames` lists
the frames handed to `websocket.send`, in order.  Frames are carried at an
arbitrary type since only their identity and order matter. -/

structure SendLoopState (α : Type) where
  sendBufs : List α
  snapshot : List α
  sentFrames : List α
  inSending : Bool

/-- State after the `Tunnel` constructor: empty queue, drainer idle. -/
def SendLoopState.empty (α : Type) : SendLoopState α :=
  { sendBufs := [], snapshot := [], sentFrames := [], inSending := false }

/-- The two events that touch the send queue: a `pushSendRequest(b)` (from
`Tunnel.send`) and the completion of one awaited `websocket.send`. -/
inductive SendEvent (α : Type)
  | push (b : α)
  | sendOne

/-- One step of the machine.

`push b`: `this.sendBufs.push(b); this.startSendLoop()`.  When a drainer is
already running, `startSendLoop` returns.  Otherwise `sendLoop` runs
synchronously up to its first `await`: it sets `inSending`, finds the while
condition true, snapshots `this.sendBufs` into its local array and resets
`this.sendBufs = []`.

`sendOne`: one `await this.websocket.send(...)` completes; the head of the
snapshot has been transmitted (`callSendBufResolve` afterwards throws a
caught `TypeError`, see above, which changes nothing here).  When the round
is exhausted the while condition is re-checked: a non-empty `this.sendBufs`
becomes the next round, otherwise the drainer exits through `finally`. -/
def sendStep {α : Type} (s : SendLoopState α) : SendEvent α → SendLoopState α
  | SendEvent.push b =>
    let s1 := { s with sendBufs := s.sendBufs ++ [b] }
    if s1.inSending then s1
    else { s1 with inSending := true, snapshot := s1.sendBufs, sendBufs := [] }
  | SendEvent.sendOne =>
    if s.inSending then
      match s.snapshot with
      | [] => s
      | b :: rest =>
        let s1 := { s with sentFrames := s.sentFrames ++ [b], snapshot := rest }
        if rest.isEmpty then
          if s1.sendBufs.isEmpty then { s1 with inSending := false }
          else { s1 with snapshot := s1.sendBufs, sendBufs := [] }
        else s1
    else s

/-- Run the machine over a schedule of events. -/
def sendRun {α : Type} (s : SendLoopState α) (es : List (SendEvent α)) : SendLoopState α :=
  es.foldl sendStep s

/-- The frames pushed by a schedule, in order. -/
def pushedFrames {α : Type} : List (SendEvent α) → List α
  | [] => []
  | SendEvent.push b :: es => b :: pushedFrames es
  | SendEvent.sendOne :: es => pushedFrames es

/-! ## Reachable request tables -/

/-- Structural facts about every table the program can actually hold: the
slot array has exactly `cap` entries, and no slot ever has `inUsed = true`
(the constructor pins the field to `false` and no other write to it exists
in the source). -/
def ReqMgr.Inv (m : ReqMgr) : Prop :=
  m.reqq.length = m.cap ∧ ∀ r ∈ m.reqq, r.inUsed = false

/-- The tables reachable from the `ReqMgr` constructor through the
operations the program performs on them. -/
inductive ReqMgr.Reachable : ReqMgr → Prop
  | new (cap : Nat) : ReqMgr.Reachable (ReqMgr.new cap)
  | allocStep (m : ReqMgr) (idx : Int) (tag : Nat) :
      ReqMgr.Reachable m → ReqMgr.Reachable (m.alloc idx tag).1
  | freeStep (m : ReqMgr) (idx : Int) (tag : Nat) :
      ReqMgr.Reachable m → ReqMgr.Reachable (m.free idx tag)
  | cleanupStep (m : ReqMgr) :
      ReqMgr.Reachable m → ReqMgr.Reachable m.cleanup
  | createdStep (m : ReqMgr) (idx tag : Nat) (databuf : List Nat) (offset : Nat) :
      ReqMgr.Reachable m →
      ReqMgr.Reachable (Tunnel.onRequestCreated m idx tag databuf offset).1
  | clientDataStep (m : ReqMgr) (idx tag : Nat) (databuf : List Nat) (offset : Nat) :
      ReqMgr.Reachable m →
      ReqMgr.Reachable (m.clientData idx tag databuf offset).1
  | clientFinishedStep (m : ReqMgr) (idx tag : Nat) :
      ReqMgr.Reachable m →
      ReqMgr.Reachable (m.clientFinished idx tag)

/-! ## Helper lemmas -/

theorem Request.free_inUsed (r : Request) : (Request.free r).inUsed = r.inUsed := by
  obtain ⟨tg, iu, su, ix, sb⟩ := r
  cases sb <;> rfl

theorem Request.free_isUsed (r : Request) : (Request.free r).isUsed = r.isUsed := by
  obtain ⟨tg, iu, su, ix, sb⟩ := r
  cases sb <;> rfl

theorem Request.proxy_inUsed (r : Request) (addr : String) :
    (r.proxy addr).inUsed = r.inUsed := by
  unfold Request.proxy
  split <;> rfl

theorem Request.onClientData_fst_inUsed (r : Request) (databuf : List Nat) (offset : Nat) :
    ((r.onClientData databuf offset).1).inUsed = r.inUsed := by
  obtain ⟨tg, iu, su, ix, sb⟩ := r
  cases sb <;> rfl

theorem ReqMgr.inv_new (cap : Nat) : (ReqMgr.new cap).Inv := by
  constructor
  · simp [ReqMgr.new]
  · intro r hr
    simp only [ReqMgr.new, List.mem_map] at hr
    obtain ⟨i, _, rfl⟩ := hr
    rfl

theorem ReqMgr.inv_alloc (m : ReqMgr) (idx : Int) (tag : Nat) (h : m.Inv) :
    ((m.alloc idx tag).1).Inv := by
  unfold ReqMgr.alloc
  split
  · exact h
  · split
    · exact h
    case _ req heq =>
      split
      · exact h
      · refine ⟨?_, ?_⟩
        · simpa [List.length_set] using h.1
        · intro r hr
          rcases List.mem_or_eq_of_mem_set hr with hmem | rfl
          · exact h.2 r hmem
          · exact h.2 req (List.getElem?_mem heq)

theorem ReqMgr.alloc_snd_inUsed (m : ReqMgr) (idx : Int) (tag : Nat) (req : Request)
    (h : m.Inv) (he : (m.alloc idx tag).2 = some req) : req.inUsed = false := by
  unfold ReqMgr.alloc at he
  split at he
  · simp at he
  · split at he
    · simp at he
    case _ req0 heq =>
      split at he
      · simp at he
      · simp only [Option.some.injEq] at he
        subst he
        exact h.2 req0 (List.getElem?_mem heq)

theorem ReqMgr.inv_free (m : ReqMgr) (idx : Int) (tag : Nat) (h : m.Inv) :
    (m.free idx tag).Inv := by
  unfold ReqMgr.free
  split
  · exact h
  · split
    · exact h
    case _ req heq =>
      split
      · exact h
      · split
        · exact h
        · refine ⟨?_, ?_⟩
          · simpa [List.length_set] using h.1
          · intro r hr
            rcases List.mem_or_eq_of_mem_set hr with hmem | rfl
            · exact h.2 r hmem
            · rw [Request.free_inUsed]
              exact h.2 req (List.getElem?_mem heq)

theorem foldl_fixed {β γ : Type} (f : β → γ → β) (b : β) (hf : ∀ c, f b c = b) :
    ∀ L : List γ, L.foldl f b = b := by
  intro L
  induction L with
  | nil => rfl
  | cons c L ih => rw [List.foldl_cons, hf, ih]

theorem foldl_preserves {β γ : Type} (P : β → Prop) (f : β → γ → β)
    (hf : ∀ b c, P b → P (f b c)) :
    ∀ (L : List γ) (b : β), P b → P (L.foldl f b) := by
  intro L
  induction L with
  | nil => intro b hb; exact hb
  | cons c L ih =>
    intro b hb
    rw [List.foldl_cons]
    exact ih (f b c) (hf b c hb)

theorem ReqMgr.inv_cleanupStepAt (acc : ReqMgr) (i : Nat) (h : acc.Inv) :
    (acc.cleanupStepAt i).Inv := by
  unfold ReqMgr.cleanupStepAt
  split
  · exact h
  case _ req heq =>
    split
    · refine ⟨?_, ?_⟩
      · simpa [List.length_set] using h.1
      · intro r hr
        rcases List.mem_or_eq_of_mem_set hr with hmem | rfl
        · exact h.2 r hmem
        · rw [Request.free_inUsed]
          exact h.2 req (List.getElem?_mem heq)
    · exact h

theorem ReqMgr.inv_cleanup (m : ReqMgr) (h : m.Inv) : m.cleanup.Inv :=
  foldl_preserves ReqMgr.Inv ReqMgr.cleanupStepAt
    (fun acc i hacc => ReqMgr.inv_cleanupStepAt acc i hacc) (List.range m.cap) m h

/-- On a table with no `inUsed` slot — every table the program ever builds —
`cleanup` does nothing at all. -/
theorem ReqMgr.cleanup_eq_self (m : ReqMgr) (h : ∀ r ∈ m.reqq, r.inUsed = false) :
    m.cleanup = m := by
  unfold ReqMgr.cleanup
  refine foldl_fixed _ _ ?_ _
  intro i
  unfold ReqMgr.cleanupStepAt
  cases heq : m.reqq[i]? with
  | none => rfl
  | some req => simp [h req (List.getElem?_mem heq)]

theorem ReqMgr.inv_allocAndProxy (m : ReqMgr) (idx tag : Nat) (domain : String)
    (port : Nat) (r : ReqMgr × ReqCreatedOutcome) (h : m.Inv)
    (he : Tunnel.allocAndProxy m idx tag domain port = Except.ok r) : r.1.Inv := by
  unfold Tunnel.allocAndProxy at he
  dsimp only at he
  split at he
  · exact absurd he (by simp)
  case _ req heq =>
    simp only [Except.ok.injEq] at he
    subst he
    have hinv1 : ((m.alloc (idx : Int) tag).1).Inv := ReqMgr.inv_alloc m idx tag h
    refine ⟨?_, ?_⟩
    · simpa [List.length_set] using hinv1.1
    · intro s hs
      rcases List.mem_or_eq_of_mem_set hs with hmem | rfl
      · exact hinv1.2 s hmem
      · rw [Request.proxy_inUsed]
        exact ReqMgr.alloc_snd_inUsed m idx tag req h heq

theorem ReqMgr.inv_onRequestCreatedE (m : ReqMgr) (idx tag : Nat) (databuf : List Nat)
    (offset : Nat) (r : ReqMgr × ReqCreatedOutcome) (h : m.Inv)
    (he : Tunnel.onRequestCreatedE m idx tag databuf offset = Except.ok r) : r.1.Inv := by
  unfold Tunnel.onRequestCreatedE at he
  split at he
  · exact absurd he (by simp)
  · dsimp only at he
    split at he
    · exact absurd he (by simp)
    · split at he
      · split at he
        · exact absurd he (by simp)
        · split at he
          · exact absurd he (by simp)
          · exact ReqMgr.inv_allocAndProxy m idx tag _ _ r h he
      · split at he
        · split at he
          · simp only [Except.ok.injEq] at he
            subst he
            exact h
          · exact absurd he (by simp)
        · simp only [Except.ok.injEq] at he
          subst he
          exact h

theorem ReqMgr.inv_onRequestCreated (m : ReqMgr) (idx tag : Nat) (databuf : List Nat)
    (offset : Nat) (h : m.Inv) :
    ((Tunnel.onRequestCreated m idx tag databuf offset).1).Inv := by
  unfold Tunnel.onRequestCreated
  cases he : Tunnel.onRequestCreatedE m idx tag databuf offset with
  | ok r => exact ReqMgr.inv_onRequestCreatedE m idx tag databuf offset r h he
  | error e => exact h

theorem ReqMgr.get_mem (m : ReqMgr) (idx : Int) (tag : Nat) (req : Request)
    (he : m.get idx tag = some req) : req ∈ m.reqq := by
  unfold ReqMgr.get at he
  split at he
  · exact absurd he (by simp)
  · split at he
    · exact absurd he (by simp)
    case _ req0 heq =>
      split at he
      · exact absurd he (by simp)
      · split at he
        · exact absurd he (by simp)
        · simp only [Option.some.injEq] at he
          subst he
          exact List.getElem?_mem heq

theorem ReqMgr.inv_clientData (m : ReqMgr) (idx tag : Nat) (databuf : List Nat)
    (offset : Nat) (h : m.Inv) : ((m.clientData idx tag databuf offset).1).Inv := by
  unfold ReqMgr.clientData
  dsimp only
  split
  · exact h
  case _ req heq =>
    refine ⟨?_, ?_⟩
    · simpa [List.length_set] using h.1
    · intro r hr
      rcases List.mem_or_eq_of_mem_set hr with hmem | rfl
      · exact h.2 r hmem
      · rw [Request.onClientData_fst_inUsed]
        exact h.2 req (ReqMgr.get_mem m idx tag req heq)

theorem ReqMgr.inv_clientFinished (m : ReqMgr) (idx tag : Nat) (h : m.Inv) :
    (m.clientFinished idx tag).Inv := by
  unfold ReqMgr.clientFinished
  split
  · exact h
  next req heq =>
    refine ⟨?_, ?_⟩
    · simpa [List.length_set] using h.1
    · intro r hr
      rcases List.mem_or_eq_of_mem_set hr with hmem | hr2
      · exact h.2 r hmem
      · rw [hr2]
        exact h.2 req (ReqMgr.get_mem m idx tag req heq)

/-- Every table the program can reach satisfies the structural invariant; in
particular no reachable table ever has a slot with `inUsed = true`. -/
theorem ReqMgr.reachable_inv (m : ReqMgr) (h : ReqMgr.Reachable m) : m.Inv := by
  induction h with
  | new cap => exact ReqMgr.inv_new cap
  | allocStep m idx tag _ ih => exact ReqMgr.inv_alloc m idx tag ih
  | freeStep m idx tag _ ih => exact ReqMgr.inv_free m idx tag ih
  | cleanupStep m _ ih => exact ReqMgr.inv_cleanup m ih
  | createdStep m idx tag databuf offset _ ih =>
    exact ReqMgr.inv_onRequestCreated m idx tag databuf offset ih
  | clientDataStep m idx tag databuf offset _ ih =>
    exact ReqMgr.inv_clientData m idx tag databuf offset ih
  | clientFinishedStep m idx tag _ ih => exact ReqMgr.inv_clientFinished m idx tag ih

/-- `cleanup` is the identity on every reachable table: the guard it tests is
never true. -/
theorem ReqMgr.cleanup_noop_reachable (m : ReqMgr) (h : ReqMgr.Reachable m) :
    m.cleanup = m :=
  ReqMgr.cleanup_eq_self m (ReqMgr.reachable_inv m h).2

/-- One keepalive tick on a tunnel whose `waitingPing` is still the
uninitialized `undefined`/`NaN` value and whose websocket is open leaves both
facts intact: the close guard `undefined > 3` is false, and `undefined++`
produces `NaN`, again not a number greater than 3. -/
theorem Tunnel.keepalive_undef_step (t : TunnelState) (now throttle : Int)
    (hw : t.waitingPing = none) (hws : t.websocket = true) :
    (Tunnel.keepalive t now throttle).waitingPing = none
      ∧ (Tunnel.keepalive t now throttle).websocket = true := by
  unfold Tunnel.keepalive
  rw [hw]
  simp only [jsUndefGt, Bool.false_eq_true, if_false]
  split
  · unfold Tunnel.sendPingMessage Tunnel.send
    simp [jsUndefIncr, hws]
  · exact ⟨hw, hws⟩

/-- Folding any schedule of keepalive ticks over a tunnel with uninitialized
`waitingPing` and an open websocket never closes it and never initializes the
counter. -/
theorem Tunnel.keepalive_fold_undef (ticks : List (Int × Int)) :
    ∀ t : TunnelState, t.waitingPing = none → t.websocket = true →
      ((ticks.foldl (fun u p => Tunnel.keepalive u p.1 p.2) t).waitingPing = none
        ∧ (ticks.foldl (fun u p => Tunnel.keepalive u p.1 p.2) t).websocket = true) := by
  induction ticks with
  | nil => intro t hw hws; exact ⟨hw, hws⟩
  | cons p ticks ih =>
    intro t hw hws
    rw [List.foldl_cons]
    have hstep := Tunnel.keepalive_undef_step t p.1 p.2 hw hws
    exact ih (Tunnel.keepalive t p.1 p.2) hstep.1 hstep.2

/-- `callSendBufResolve` is the identity: `sendBuf.resolve.resolve` is
`undefined`, the call throws `TypeError`, and the `catch` only logs. -/
theorem Tunnel.callSendBufResolve_eq_id (sb : SendBuf) :
    Tunnel.callSendBufResolve sb = sb := by
  obtain ⟨b, rf, p⟩ := sb
  cases rf <;> rfl

/-- Effect of one event on the concatenation
`sentFrames ++ snapshot ++ sendBufs` (all frames ever pushed, in order, the
already-sent ones first): a push appends its frame at the tail, a send
completion moves frames around without reordering.  The second conjunct is
the side invariant that an idle drainer has an empty snapshot. -/
theorem sendStep_ordered {α : Type} (s : SendLoopState α) (e : SendEvent α)
    (hidle : s.inSending = false → s.snapshot = []) :
    ((sendStep s e).sentFrames ++ (sendStep s e).snapshot ++ (sendStep s e).sendBufs
      = s.sentFrames ++ s.snapshot ++ s.sendBufs
          ++ (match e with | SendEvent.push b => [b] | SendEvent.sendOne => []))
    ∧ ((sendStep s e).inSending = false → (sendStep s e).snapshot = []) := by
  obtain ⟨bufs, snap, sent, ins⟩ := s
  cases e with
  | push b =>
    cases ins with
    | true => simp [sendStep]
    | false =>
      have hsnap : snap = [] := hidle rfl
      subst hsnap
      simp [sendStep]
  | sendOne =>
    cases ins with
    | false => simpa [sendStep] using hidle
    | true =>
      cases snap with
      | nil => simp [sendStep]
      | cons b rest =>
        cases rest with
        | nil =>
          cases bufs with
          | nil => simp [sendStep]
          | cons c bufs2 => simp [sendStep]
        | cons b2 rest2 => simp [sendStep]

/-- Running any schedule from a state whose idle drainer has an empty
snapshot preserves the order invariant. -/
theorem sendRun_ordered {α : Type} (es : List (SendEvent α)) :
    ∀ s : SendLoopState α, (s.inSending = false → s.snapshot = []) →
      ((sendRun s es).sentFrames ++ (sendRun s es).snapshot ++ (sendRun s es).sendBufs
        = s.sentFrames ++ s.snapshot ++ s.sendBufs ++ pushedFrames es)
      ∧ ((sendRun s es).inSending = false → (sendRun s es).snapshot = []) := by
  induction es with
  | nil =>
    intro s hidle
    exact ⟨by simp [sendRun, pushedFrames], hidle⟩
  | cons e es ih =>
    intro s hidle
    have hstep := sendStep_ordered s e hidle
    have hrest := ih (sendStep s e) hstep.2
    have hrun : sendRun s (e :: es) = sendRun (sendStep s e) es := by
      simp [sendRun]
    refine ⟨?_, by rw [hrun]; exact hrest.2⟩
    rw [hrun, hrest.1, hstep.1]
    cases e <;> simp [pushedFrames]

/-- With the counter initialized to 0 — what §4.5 of the spec prescribes for
the constructor — the fifth idle keepalive tick would close the tunnel; this
isolates the divergence to the missing `this.waitingPing = 0`. -/
theorem keepalive_initialized_counter_closes_on_fifth_tick :
    ((fun t => Tunnel.keepalive t 20001 10000)^[5]
      { Tunnel.new 1 0 with waitingPing := some 0 }).websocket = false := by
  decide

/-! ## The claims -/

/-- Claim C1.  The claim states that `alloc(idx, tag)` on a slot already in
use returns null and leaves the slot unchanged.  In the code the in-use guard
reads `req.inUsed`, a field only the constructor writes (to `false`), while
allocation marks `req.isUsed`; so after `alloc(0, 5)` has marked slot 0 in
use, a second `alloc(0, 6)` is not rejected: it returns the slot and
overwrites its tag with 6. -/
theorem claim_C1_alloc_accepts_inuse_slot :
    ((((ReqMgr.new 1).alloc 0 5).1).reqq[0]?.map Request.isUsed = some true)
    ∧ (((((ReqMgr.new 1).alloc 0 5).1).alloc 0 6).2).isSome = true
    ∧ (((((ReqMgr.new 1).alloc 0 5).1).alloc 0 6).1).reqq[0]?.map Request.tag = some 6 := by
  decide

/-- Claim C2.  The claim states that `cleanup()` frees every slot in use.
The loop guard reads `reqq[i].inUsed`, which is never true in any state the
program reaches, so on a table whose slot 0 is in use (`isUsed`, tag 5)
`cleanup` changes nothing at all: no tag bump, no cleared flag, no
`slot.free()`. -/
theorem claim_C2_cleanup_leaves_inuse_slot :
    ((((ReqMgr.new 1).alloc 0 5).1).reqq[0]?.map Request.isUsed = some true)
    ∧ (((ReqMgr.new 1).alloc 0 5).1).cleanup = ((ReqMgr.new 1).alloc 0 5).1 := by
  decide

/-- Claim C3.  The claim states that iterating `keepalive` on a freshly
constructed tunnel that never receives a pong closes it on the tick after the
fourth missed ping.  The constructor never initializes `this.waitingPing`, so
the close guard compares `undefined` (and after `waitingPing++`, `NaN`)
against 3, which is always false: over any schedule of keepalive ticks
whatsoever the tunnel stays open and the counter never becomes a number. -/
theorem claim_C3_keepalive_never_closes_fresh_tunnel (cap : Nat) (t0 : Int)
    (ticks : List (Int × Int)) :
    (ticks.foldl (fun u p => Tunnel.keepalive u p.1 p.2) (Tunnel.new cap t0)).websocket
      = true :=
  (Tunnel.keepalive_fold_undef ticks (Tunnel.new cap t0) rfl rfl).2

/-- Claim C4.  The claim states that the close sequence resolves every
pending completion signal in `send_queue`.  `onClosed` does clear the queue,
but `callSendBufResolve` invokes `sendBuf.resolve.resolve()` — the property
`resolve` of the resolve function is `undefined`, the call throws a
`TypeError` that the `catch` only logs — so every promise keeps exactly the
state it had: pending entries stay pending and their awaiting callers stay
blocked. -/
theorem claim_C4_onClosed_resolves_no_promise (t : TunnelCloseView) :
    (Tunnel.onClosed t).1.sendBufs = []
      ∧ (Tunnel.onClosed t).2.map SendBuf.promise = t.sendBufs.map SendBuf.promise := by
  refine ⟨rfl, ?_⟩
  simp [Tunnel.onClosed, Tunnel.callSendBufResolve_eq_id]

/-- Claim C5.  The claim states that `write(chunk)` on a non-closed socket
appends the chunk and starts the drainer, which sends the queued chunks in
order.  On a fresh (connecting, idle) socket the chunk is indeed queued, but
`startSendLoop` calls `writeLoop()` — an unbound identifier, the method is
`this.writeLoop` — so a `ReferenceError` is raised and nothing is ever handed
to the stream. -/
theorem claim_C5_write_raises_referenceError :
    Socketb.write (Socketb.new "example.com:80") [7, 8]
      = ({ Socketb.new "example.com:80" with chunks2Send := [[7, 8]] },
          some JsErr.referenceError)
    ∧ ((Socketb.write (Socketb.new "example.com:80") [7, 8]).1).sentChunks = [] := by
  decide

/-- Claim C6.  The claim states that a ReqCreated frame with addr_type 2
allocates the slot and proxies to `p8:p7:p6:p5:p4:p3:p2:p1:<port>`.  The ipv6
`case 2` computes exactly that string (second conjunct) but has no `break`:
control falls through into the `default` arm, which logs and returns, so the
frame `[4, idx=0, tag=7, type 2, groups 1..8, port 80]` leaves the table
unchanged and proxies nothing (first conjunct). -/
theorem claim_C6_ipv6_request_falls_through_and_is_dropped :
    Tunnel.onRequestCreated (ReqMgr.new 1) 0 7
        [4, 0, 0, 7, 0, 2, 1, 0, 2, 0, 3, 0, 4, 0, 5, 0, 6, 0, 7, 0, 8, 0, 80, 0] 5
      = (ReqMgr.new 1, ReqCreatedOutcome.droppedUnsupported)
    ∧ ipv6DomainString 1 2 3 4 5 6 7 8 = "8:7:6:5:4:3:2:1" := by
  decide

/-- Claim C7.  The claim states that a ReqCreated frame with addr_type 0 and
address bytes 1,2,3,4, port 80, decodes to target "4.3.2.1:80" and starts
proxying.  The ipv4 `case 0` evaluates `message[4] + ...` where no binding
named `message` exists, so a `ReferenceError` is thrown before any decode:
no allocation, no proxying, the table is untouched. -/
theorem claim_C7_ipv4_request_throws_referenceError :
    Tunnel.onRequestCreated (ReqMgr.new 1) 0 7
        [4, 0, 0, 7, 0, 0, 1, 2, 3, 4, 80, 0] 5
      = (ReqMgr.new 1, ReqCreatedOutcome.threw JsErr.referenceError) := by
  decide

/-- Claim C8.  For every reachable request table, after `free(idx, tag)` on
an in-range slot that is in use with a matching tag: `get(idx, tag)` with the
old tag returns null, and `alloc(idx, tag2)` with `tag2 ≠ tag` succeeds and
returns exactly the slot stored at `idx`. -/
theorem claim_C8_free_then_get_none_and_alloc_succeeds
    (m : ReqMgr) (idx tag tag2 : Nat) (req : Request)
    (hreach : ReqMgr.Reachable m)
    (hidx : idx < m.cap)
    (hslot : m.reqq[idx]? = some req)
    (hused : req.isUsed = true)
    (htag : req.tag = tag)
    (hne : tag2 ≠ tag) :
    ((m.free (idx : Int) tag).get (idx : Int) tag = none)
    ∧ (((m.free (idx : Int) tag).alloc (idx : Int) tag2).2).isSome = true
    ∧ ((m.free (idx : Int) tag).alloc (idx : Int) tag2).2
        = (((m.free (idx : Int) tag).alloc (idx : Int) tag2).1).reqq[idx]? := by
  have hinv := ReqMgr.reachable_inv m hreach
  have hlt : idx < m.reqq.length := by rw [hinv.1]; exact hidx
  have hnotrange : ¬((m.cap : Int) ≤ (idx : Int) ∨ (idx : Int) < 0) := by
    push_neg
    exact ⟨by exact_mod_cast hidx, Int.natCast_nonneg idx⟩
  have htonat : ((idx : Int)).toNat = idx := Int.toNat_natCast idx
  obtain ⟨req2, hreq2⟩ :
      ∃ r2 : Request, Request.free { req with tag := tag + 1, isUsed := false } = r2 :=
    ⟨_, rfl⟩
  have hfree : m.free (idx : Int) tag = { m with reqq := m.reqq.set idx req2 } := by
    unfold ReqMgr.free
    rw [if_neg hnotrange, htonat, hslot]
    simp [hused, htag, hreq2]
  have hslot2 : (m.reqq.set idx req2)[idx]? = some req2 :=
    List.getElem?_set_self hlt
  have hused2 : req2.isUsed = false := by
    rw [← hreq2, Request.free_isUsed]
  have hinuse2 : req2.inUsed = false := by
    rw [← hreq2, Request.free_inUsed]
    exact hinv.2 req (List.getElem?_mem hslot)
  refine ⟨?_, ?_, ?_⟩
  · rw [hfree]
    unfold ReqMgr.get
    rw [if_neg hnotrange, htonat]
    dsimp only
    rw [hslot2]
    simp [hused2]
  · rw [hfree]
    unfold ReqMgr.alloc
    rw [if_neg hnotrange, htonat]
    dsimp only
    rw [hslot2]
    simp [hinuse2]
  · rw [hfree]
    unfold ReqMgr.alloc
    rw [if_neg hnotrange, htonat]
    dsimp only
    rw [hslot2]
    simp only [hinuse2, Bool.false_eq_true, if_false]
    rw [List.getElem?_set_self (by rw [List.length_set]; exact hlt)]

/-- Witness for claim C8 at a concrete table: `cap = 1`, `alloc(0, 5)`, then
`free(0, 5)`, `get(0, 5)` and `alloc(0, 9)`. -/
theorem claim_C8_witness :
    ((((ReqMgr.new 1).alloc 0 5).1).reqq[0]?
        = some { tag := 5, inUsed := false, isUsed := true, idx := some 0, socketb := none })
    ∧ (((((ReqMgr.new 1).alloc 0 5).1).free ((0 : Nat) : Int) 5).get ((0 : Nat) : Int) 5 = none
      ∧ ((((((ReqMgr.new 1).alloc 0 5).1).free ((0 : Nat) : Int) 5).alloc ((0 : Nat) : Int) 9).2).isSome = true
      ∧ (((((ReqMgr.new 1).alloc 0 5).1).free ((0 : Nat) : Int) 5).alloc ((0 : Nat) : Int) 9).2
          = ((((((ReqMgr.new 1).alloc 0 5).1).free ((0 : Nat) : Int) 5).alloc ((0 : Nat) : Int) 9).1).reqq[(0 : Nat)]?) :=
  ⟨by decide,
    claim_C8_free_then_get_none_and_alloc_succeeds
      (((ReqMgr.new 1).alloc 0 5).1) 0 5 9
      { tag := 5, inUsed := false, isUsed := true, idx := some 0, socketb := none }
      (ReqMgr.Reachable.allocStep (ReqMgr.new 1) 0 5 (ReqMgr.Reachable.new 1))
      (by decide) (by decide) (by decide) (by decide) (by decide)⟩

/-- Claim C9.  The frames handed to `websocket.send` are exactly the pushed
frames in push order with the not-yet-sent suffix still queued (in the
drainer's snapshot, then `sendBufs`): over every interleaving of pushes and
send completions the wire order equals the enqueue order, with the single
drainer guarded by `inSending`. -/
theorem claim_C9_sends_follow_enqueue_order (α : Type) (es : List (SendEvent α)) :
    (sendRun (SendLoopState.empty α) es).sentFrames
      ++ (sendRun (SendLoopState.empty α) es).snapshot
      ++ (sendRun (SendLoopState.empty α) es).sendBufs
      = pushedFrames es := by
  have h := (sendRun_ordered es (SendLoopState.empty α) (fun _ => rfl)).1
  simpa [SendLoopState.empty] using h

/-- Claim C10.  An inbound frame whose command byte is 7
(ReqServerFinished), 8 (ReqServerClosed) or 9 (ReqRefreshQuota), carrying at
least the `idx`/`tag` bytes, is parsed and dropped by the `default` arm of
`onRequestMessage`: the whole tunnel state — request table, every slot, every
egress socket, the send queue — is unchanged except `lastActivate`, and no
exception escapes. -/
theorem claim_C10_server_range_cmds_only_touch_lastActivate
    (t : TunnelState) (now : Int) (cmd b1 b2 b3 b4 : Nat) (rest : List Nat)
    (hcmd : cmd = CMD_ReqServerFinished ∨ cmd = CMD_ReqServerClosed
      ∨ cmd = CMD_ReqRefreshQuota) :
    Tunnel.onMessageEvent t now (cmd :: b1 :: b2 :: b3 :: b4 :: rest)
      = ({ t with lastActivate := now }, none) := by
  rcases hcmd with rfl | rfl | rfl
  all_goals
    unfold Tunnel.onMessageEvent Tunnel.onTunnelMessage
    simp only [List.length_cons]
    rw [if_neg (by omega)]
    simp only [List.getElem?_cons_zero]
    rw [if_pos (by decide)]
    unfold Tunnel.onRequestMessage readUInt16LE
    simp only [List.getElem?_cons_succ, List.getElem?_cons_zero]
    rfl

/-- Witness for claim C10 on a concrete tunnel and the frame `[7,0,0,0,0]`. -/
theorem claim_C10_witness :
    (CMD_ReqServerFinished = CMD_ReqServerFinished
      ∨ CMD_ReqServerFinished = CMD_ReqServerClosed
      ∨ CMD_ReqServerFinished = CMD_ReqRefreshQuota)
    ∧ Tunnel.onMessageEvent (Tunnel.new 1 0) 5
        (CMD_ReqServerFinished :: 0 :: 0 :: 0 :: 0 :: [])
        = ({ Tunnel.new 1 0 with lastActivate := 5 }, none) :=
  ⟨Or.inl rfl,
    claim_C10_server_range_cmds_only_touch_lastActivate
      (Tunnel.new 1 0) 5 CMD_ReqServerFinished 0 0 0 0 [] (Or.inl rfl)⟩

end WorkerdProxy
